import Mathlib

/-!
Verification of the reporunner Python SDK (sdks/python/reporunner): a shallow
embedding of the exception taxonomy (exceptions.py), the authentication
manager (auth.py) and the request pipeline (client.py), together with
theorems about the behaviors the specification describes.

Conventions of the embedding:
* Python `None` / missing values become `Option`.
* Python string truthiness (`if s:`) is modelled by `truthy`, which is false
  for `None` and for the empty string.
* Python `datetime` values are modelled as integer epoch seconds; the
  five-minute refresh buffer is 300 seconds.
* `float` retry delays are modelled as rationals, exact for the values the
  code computes (`retry_delay * 2 ** attempt`).
* Raised exceptions become `Except` errors or an explicit `raised` outcome.
* The HTTP transport is abstracted as a function from the attempt index to
  the outcome of that attempt (a transport-level error, as raised by httpx, or a
  received response).
-/

namespace Reporunner

/-- Python truthiness of an optional string: `None` and `""` are falsy. -/
def truthy : Option String → Bool
  | none => false
  | some s => !s.isEmpty

/-- Python `a or b` on optional strings: the first operand if truthy, else the second. -/
def pyOrStr (a b : Option String) : Option String :=
  if truthy a then a else b

/-- Python f-string rendering of an optional string (`None` renders as "None"). -/
def pyShowOpt : Option String → String
  | none => "None"
  | some s => s

/-- A JSON-like Python value, used for bodies and error contexts. -/
inductive PyVal where
  | pnone
  | pstr (s : String)
  | pint (n : Int)
  | pbool (b : Bool)
  | pdict (entries : List (String × PyVal))
  | plist (elems : List PyVal)

/-- Python `dict.get(k)` on an association list (first binding wins). -/
def pyDictFind (entries : List (String × PyVal)) (k : String) : Option PyVal :=
  (entries.find? (fun p => p.1 == k)).map (fun p => p.2)

/-- Python `str()` of a `PyVal`, used where the code interpolates a value into a message. -/
def pyStr : PyVal → String
  | .pnone => "None"
  | .pstr s => s
  | .pint n => toString n
  | .pbool b => if b then "True" else "False"
  | .pdict _ => "dict"
  | .plist _ => "list"

/-- The digits of a string as a natural number; `none` when empty or non-digit. -/
def digitsToNat (l : List Char) : Option Nat :=
  if l ≠ [] ∧ l.all Char.isDigit then
    some (l.foldl (fun a c => a * 10 + (c.toNat - 48)) 0)
  else none

/-- The whitespace characters Python strips around an `int()` argument. -/
def pyWhitespace (c : Char) : Bool :=
  c == ' ' || c == '\t' || c == '\n' || c == '\r' || c == '\x0b' || c == '\x0c'

/-- Both-ends whitespace stripping of a character list. -/
def stripWs (l : List Char) : List Char :=
  ((l.dropWhile pyWhitespace).reverse.dropWhile pyWhitespace).reverse

/-- Python `int(s)` on a header string: optional surrounding whitespace, optional
sign, then decimal digits; `none` models a raised `ValueError`. -/
def parsePyInt (s : String) : Option Int :=
  match stripWs s.toList with
  | '+' :: rest => (digitsToNat rest).map Int.ofNat
  | '-' :: rest => (digitsToNat rest).map (fun n => -(n : Int))
  | l => (digitsToNat l).map Int.ofNat

/-- An httpx response as the SDK observes it: status code, headers (keys
lower-cased, as httpx normalizes them), the parsed JSON body (`none` when
`.json()` raises or the parsed value has no `.get`, i.e. is not a dict),
and the raw text. -/
structure Response where
  status_code : Int
  headers : List (String × String)
  body : Option (List (String × PyVal))
  text : String

/-- Case-normalized header lookup (`k in headers` / `headers[k]`). -/
def headerGet (hs : List (String × String)) (k : String) : Option String :=
  (hs.find? (fun p => p.1 == k)).map (fun p => p.2)

/-- The exception classes of exceptions.py that create_http_exception and the
auth manager can produce. -/
inductive ErrorKind where
  | base
  | authentication
  | authorization
  | validation
  | network
  | rateLimit
  deriving DecidableEq

/-- Python class name of each kind, as used by `to_dict`. -/
def className : ErrorKind → String
  | .base => "KlikkFlowError"
  | .authentication => "AuthenticationError"
  | .authorization => "AuthorizationError"
  | .validation => "ValidationError"
  | .network => "NetworkError"
  | .rateLimit => "RateLimitError"

/-- The `error_code` constructor default of each class (the base class has none). -/
def defaultErrorCode : ErrorKind → Option String
  | .base => none
  | .authentication => some "AUTH_FAILED"
  | .authorization => some "AUTH_INSUFFICIENT_PERMISSIONS"
  | .validation => some "VALIDATION_ERROR"
  | .network => some "NETWORK_ERROR"
  | .rateLimit => some "RATE_LIMIT_EXCEEDED"

/-- Python `issubclass(cls, NetworkError)` over the kinds above. -/
def isNetworkKind : ErrorKind → Bool
  | .network => true
  | .rateLimit => true
  | _ => false

/-- A KlikkFlowError instance: the base attributes plus the optional
subclass attributes that the claims inspect (NetworkError and
RateLimitError extras, ValidationError extras). -/
structure KFError where
  kind : ErrorKind
  message : String
  error_code : Option String
  context : List (String × PyVal)
  status_code : Option Int := none
  response : Option Response := none
  retry_after : Option Int := none
  limit : Option Int := none
  remaining : Option Int := none
  reset_time : Option Int := none
  field_name : Option String := none
  validation_errors : List PyVal := []

/-- Model of `KlikkFlowError.__str__`: code-tagged when a truthy code is present. -/
def strOfError (e : KFError) : String :=
  if truthy e.error_code then
    "[" ++ pyShowOpt e.error_code ++ "] " ++ e.message
  else
    e.message

/-- A Python optional string as a JSON value. -/
def pyOfOptStr : Option String → PyVal
  | none => .pnone
  | some s => .pstr s

/-- A Python optional integer as a JSON value. -/
def pyOfOptInt : Option Int → PyVal
  | none => .pnone
  | some n => .pint n

/-- The base-class `to_dict` fields. -/
def baseToDict (e : KFError) : List (String × PyVal) :=
  [("type", .pstr (className e.kind)),
   ("message", .pstr e.message),
   ("error_code", pyOfOptStr e.error_code),
   ("context", .pdict e.context)]

/-- The fields `NetworkError.to_dict` adds. -/
def networkToDictExtra (e : KFError) : List (String × PyVal) :=
  [("status_code", pyOfOptInt e.status_code),
   ("response_headers", match e.response with
      | none => .pnone
      | some r => .pdict (r.headers.map (fun p => (p.1, PyVal.pstr p.2))))]

/-- Model of `to_dict` for each class: the base dict updated with subclass fields. -/
def toDict (e : KFError) : List (String × PyVal) :=
  match e.kind with
  | .validation =>
      baseToDict e ++
        [("field", pyOfOptStr e.field_name),
         ("validation_errors", .plist e.validation_errors)]
  | .network => baseToDict e ++ networkToDictExtra e
  | .rateLimit =>
      baseToDict e ++ networkToDictExtra e ++
        [("retry_after", pyOfOptInt e.retry_after),
         ("limit", pyOfOptInt e.limit),
         ("remaining", pyOfOptInt e.remaining),
         ("reset_time", pyOfOptInt e.reset_time)]
  | _ => baseToDict e

/-- The table `HTTP_EXCEPTION_MAP` from exceptions.py. -/
def HTTP_EXCEPTION_MAP : List (Int × ErrorKind) :=
  [(400, .validation),
   (401, .authentication),
   (403, .authorization),
   (404, .base),
   (429, .rateLimit),
   (500, .base),
   (502, .network),
   (503, .network),
   (504, .network)]

/-- Lookup `HTTP_EXCEPTION_MAP.get(status_code, NetworkError)`. -/
def httpExceptionMapGet (status_code : Int) : ErrorKind :=
  match HTTP_EXCEPTION_MAP.find? (fun p => p.1 == status_code) with
  | some p => p.2
  | none => .network

/-- Model of `create_http_exception` from exceptions.py: picks the class from the map,
extracts the rate-limit headers for a 429 with a response, and passes the
transport attributes to NetworkError subclasses. -/
def create_http_exception (status_code : Int) (message : String)
    (response : Option Response) (context : List (String × PyVal)) : KFError :=
  let kind := httpExceptionMapGet status_code
  match kind, response with
  | .rateLimit, some r =>
      { kind := .rateLimit
        message := message
        error_code := some "RATE_LIMIT_EXCEEDED"
        context := context
        status_code := some status_code
        response := some r
        retry_after := (headerGet r.headers "retry-after").bind parsePyInt
        limit := (headerGet r.headers "x-ratelimit-limit").bind parsePyInt
        remaining := (headerGet r.headers "x-ratelimit-remaining").bind parsePyInt
        reset_time := (headerGet r.headers "x-ratelimit-reset").bind parsePyInt }
  | _, _ =>
      if isNetworkKind kind then
        { kind := kind
          message := message
          error_code := defaultErrorCode kind
          context := context
          status_code := some status_code
          response := response }
      else
        { kind := kind
          message := message
          error_code := defaultErrorCode kind
          context := context }

/-- The `AuthConfig` record from types.py (all fields optional strings). -/
structure AuthConfig where
  api_key : Option String
  access_token : Option String
  refresh_token : Option String
  username : Option String
  password : Option String

/-- The mutable token state of `AuthManager`: `_access_token`,
`_refresh_token`, `_token_expires_at` (epoch seconds). -/
structure TokenState where
  access_token : Option String
  refresh_token : Option String
  token_expires_at : Option Int

/-- The JSON body the refresh endpoint returns, as `_refresh_access_token`
reads it (each key optional; a missing `access_token` key is a KeyError). -/
structure RefreshData where
  access_token : Option String
  refresh_token : Option String
  expires_in : Option Int
  expires_at : Option Int

/-- Outcome of the `POST /auth/refresh` call the refresh path performs: the
transport layer either raises or delivers a parsed body. -/
inductive RefreshOutcome where
  | failure (msg : String)
  | success (data : RefreshData)

/-- An `AuthenticationError(msg)` with its constructor defaults. -/
def authenticationError (msg : String) : KFError :=
  { kind := .authentication
    message := msg
    error_code := some "AUTH_FAILED"
    context := [] }

/-- Model of `AuthManager._token_needs_refresh`: false unless both a truthy stored
token and an expiry are present; otherwise true iff the token expires within
the next five minutes. -/
def token_needs_refresh (st : TokenState) (now : Int) : Bool :=
  if !(truthy st.access_token) || st.token_expires_at.isNone then
    false
  else
    decide (now + 5 * 60 ≥ st.token_expires_at.getD 0)

/-- Model of `AuthManager._refresh_access_token`: raises when no refresh token is
stored; otherwise performs exactly one refresh call and on success replaces
the access token and, when present in the body, the refresh token and the
expiry (`expires_in` preferred over `expires_at`). Any exception from the
call is wrapped in an `AuthenticationError`. Returns the new state together
with the number of refresh calls made. -/
def refresh_access_token (st : TokenState) (now : Int) (server : RefreshOutcome) :
    Except KFError TokenState × Nat :=
  if !(truthy st.refresh_token) then
    (.error (authenticationError "No refresh token available"), 0)
  else
    match server with
    | .failure msg =>
        (.error (authenticationError ("Failed to refresh token: " ++ msg)), 1)
    | .success d =>
        match d.access_token with
        | none =>
            (.error (authenticationError "Failed to refresh token: KeyError"), 1)
        | some tok =>
            let st1 : TokenState := { st with access_token := some tok }
            let st2 : TokenState :=
              match d.refresh_token with
              | some r => { st1 with refresh_token := some r }
              | none => st1
            let st3 : TokenState :=
              match d.expires_in with
              | some s => { st2 with token_expires_at := some (now + s) }
              | none =>
                  match d.expires_at with
                  | some a => { st2 with token_expires_at := some a }
                  | none => st2
            (.ok st3, 1)

/-- Result of `get_auth_headers`: either the headers plus the (possibly
updated) token state, or a raised error; `refreshCalls` counts the refresh
endpoint calls the invocation performed. -/
structure AuthResult where
  result : Except KFError (List (String × String) × TokenState)
  refreshCalls : Nat

/-- Standard base64 alphabet. -/
def base64Chars : List Char :=
  "ABCDEFGHIJKLMNOPQRSTUVWXYZabcdefghijklmnopqrstuvwxyz0123456789+/".toList

/-- One base64 output character. -/
def b64Char (n : Nat) : Char := base64Chars.getD n '?'

/-- Base64 of a byte list, three bytes at a time, padded with `=`. -/
def b64Groups : List Nat → List Char
  | [] => []
  | [a] => [b64Char (a / 4), b64Char (a % 4 * 16), '=', '=']
  | [a, b] => [b64Char (a / 4), b64Char (a % 4 * 16 + b / 16), b64Char (b % 16 * 4), '=']
  | a :: b :: c :: rest =>
      b64Char (a / 4) :: b64Char (a % 4 * 16 + b / 16) ::
        b64Char (b % 16 * 4 + c / 64) :: b64Char (c % 64) :: b64Groups rest

/-- Python `base64.b64encode(s.encode()).decode()`. -/
def b64encode (s : String) : String :=
  String.mk (b64Groups (s.toUTF8.toList.map (fun b => b.toNat)))

/-- Model of `AuthManager.get_auth_headers`: a static API key wins outright; else a
token (stored token preferred over the configured one) is used, refreshed
first when `_token_needs_refresh`; else basic credentials; else an
`AuthenticationError` is raised. The refresh endpoint is abstracted by
`server`; `now` stands for `datetime.utcnow()`. -/
def get_auth_headers (cfg : AuthConfig) (st : TokenState) (now : Int)
    (server : RefreshOutcome) : AuthResult :=
  if truthy cfg.api_key then
    ⟨.ok ([("Authorization", "Bearer " ++ pyShowOpt cfg.api_key)], st), 0⟩
  else if truthy cfg.access_token || truthy st.access_token then
    let token := pyOrStr st.access_token cfg.access_token
    if token_needs_refresh st now then
      match refresh_access_token st now server with
      | (.error e, n) => ⟨.error e, n⟩
      | (.ok st2, n) =>
          ⟨.ok ([("Authorization", "Bearer " ++ pyShowOpt st2.access_token)], st2), n⟩
    else
      ⟨.ok ([("Authorization", "Bearer " ++ pyShowOpt token)], st), 0⟩
  else if truthy cfg.username && truthy cfg.password then
    let credentials :=
      b64encode (pyShowOpt cfg.username ++ ":" ++ pyShowOpt cfg.password)
    ⟨.ok ([("Authorization", "Basic " ++ credentials)], st), 0⟩
  else
    ⟨.error (authenticationError "No valid authentication method configured"), 0⟩

/-- The `ClientConfig` record from types.py. -/
structure ClientConfig where
  base_url : String
  timeout : Int
  max_retries : Nat
  retry_delay : ℚ
  verify_ssl : Bool
  user_agent : Option String

/-- What one HTTP attempt produces: a transport-level `httpx.RequestError`
or a response. -/
inductive TransportOutcome where
  | transportError (msg : String)
  | response (r : Response)

/-- httpx `response.is_success`: a 2xx status. -/
def isSuccessStatus (code : Int) : Bool :=
  decide (200 ≤ code) && decide (code < 300)

/-- The message and context `_handle_error_response` builds inside its `try`
block: `none` when any step raises (body not parseable as a dict, or the
`error` entry is not a dict), in which case the `except` fallback applies. -/
def parseErrorBody (r : Response) : Option (String × List (String × PyVal)) :=
  match r.body with
  | some entries =>
      let ctx := [("status_code", PyVal.pint r.status_code),
                  ("response_data", PyVal.pdict entries)]
      match pyDictFind entries "error" with
      | none => some (r.text, ctx)
      | some (.pdict inner) =>
          match pyDictFind inner "message" with
          | none => some (r.text, ctx)
          | some v => some (pyStr v, ctx)
      | some _ => none
  | none => none

/-- Model of `KlikkFlowClient._handle_error_response`: builds the message and context
from the body (with an `HTTP <status>: <text>` fallback) and returns the
typed error from `create_http_exception`; the caller raises it. -/
def handle_error_response (r : Response) : KFError :=
  match parseErrorBody r with
  | some (message, context) =>
      create_http_exception r.status_code message (some r) context
  | none =>
      create_http_exception r.status_code
        ("HTTP " ++ toString r.status_code ++ ": " ++ r.text)
        (some r)
        [("status_code", PyVal.pint r.status_code)]

/-- The `NetworkError` built in the retry loop on a transport failure. -/
def requestFailedError (msg : String) (attempt : Nat) (maxRetries : Nat) : KFError :=
  { kind := .network
    message := "Request failed: " ++ msg
    error_code := some "NETWORK_ERROR"
    context := [("attempt", .pint (attempt + 1)),
                ("max_retries", .pint maxRetries)] }

/-- How `_request` ends: a returned 2xx response or a raised error. -/
inductive ReqOutcome where
  | success (r : Response)
  | raised (e : KFError)

/-- What the attempt loop did: HTTP calls made, the sleeps performed (in
seconds, in order), and the final outcome. -/
structure LoopResult where
  httpCalls : Nat
  sleeps : List ℚ
  outcome : ReqOutcome

/-- The `for attempt in range(max_retries + 1)` loop of
`KlikkFlowClient._request`. A 2xx response returns; a non-2xx response
raises the typed error from `_handle_error_response` (not caught by the
`except httpx.RequestError` handler, so it ends the loop); a transport
error sleeps `retry_delay * 2 ** attempt` and retries while
`attempt < max_retries`, else raises the wrapping `NetworkError`. The
`fuel` argument is the number of loop iterations left; when it reaches
zero the post-loop fallback code runs. -/
def request_loop (maxRetries : Nat) (delay : ℚ) (att : Nat → TransportOutcome)
    (lastExc : Option KFError) (attempt : Nat) :
    Nat → List ℚ → LoopResult
  | 0, sleeps =>
      match lastExc with
      | some e => ⟨attempt, sleeps, .raised e⟩
      | none =>
          ⟨attempt, sleeps,
           .raised { kind := .network
                     message := "Request failed after all retries"
                     error_code := some "NETWORK_ERROR"
                     context := [] }⟩
  | fuel + 1, sleeps =>
      match att attempt with
      | .response r =>
          if isSuccessStatus r.status_code then
            ⟨attempt + 1, sleeps, .success r⟩
          else
            ⟨attempt + 1, sleeps, .raised (handle_error_response r)⟩
      | .transportError msg =>
          let e := requestFailedError msg attempt maxRetries
          if attempt < maxRetries then
            request_loop maxRetries delay att (some e) (attempt + 1) fuel
              (sleeps ++ [delay * ((2 ^ attempt : ℕ) : ℚ)])
          else
            ⟨attempt + 1, sleeps, .raised e⟩

/-- A full `_request` run: how many times `get_auth_headers` was invoked,
plus the loop trace. -/
structure RequestRun where
  authCalls : Nat
  httpCalls : Nat
  sleeps : List ℚ
  outcome : ReqOutcome

/-- Model of `KlikkFlowClient._request`: rejects a closed client, resolves the auth
headers once (before the attempt loop; an auth failure propagates before any
HTTP call), then runs the attempt loop. Headers do not influence the
abstracted transport, which is given by `att`. -/
def client_request (closed : Bool) (cfg : ClientConfig) (acfg : AuthConfig)
    (st : TokenState) (now : Int) (server : RefreshOutcome)
    (att : Nat → TransportOutcome) : RequestRun :=
  if closed then
    ⟨0, 0, [],
     .raised { kind := .base
               message := "Client has been closed"
               error_code := none
               context := [] }⟩
  else
    match (get_auth_headers acfg st now server).result with
    | .error e => ⟨1, 0, [], .raised e⟩
    | .ok _ =>
        let lr := request_loop cfg.max_retries cfg.retry_delay att none 0
          (cfg.max_retries + 1) []
        ⟨1, lr.httpCalls, lr.sleeps, lr.outcome⟩

/-! ## Helper lemmas -/

/-- The error kind produced by `create_http_exception` is whatever the
status-code map yields. -/
theorem create_http_exception_kind (s : Int) (msg : String) (resp : Option Response)
    (ctx : List (String × PyVal)) :
    (create_http_exception s msg resp ctx).kind = httpExceptionMapGet s := by
  unfold create_http_exception
  cases hk : httpExceptionMapGet s <;> cases resp <;> simp [hk, isNetworkKind]

/-- A status code outside the map keys yields the NetworkError default. -/
theorem httpExceptionMapGet_unmapped (s : Int)
    (h : s ∉ HTTP_EXCEPTION_MAP.map Prod.fst) : httpExceptionMapGet s = .network := by
  unfold httpExceptionMapGet
  have hf : HTTP_EXCEPTION_MAP.find? (fun p => p.1 == s) = none := by
    rw [List.find?_eq_none]
    intro a ha
    simp only [beq_iff_eq]
    intro heq
    exact h (heq ▸ List.mem_map_of_mem Prod.fst ha)
  rw [hf]

/-! ## C4: the status-to-kind table -/

/-- C4: for every HTTP status code in the fixed mapping table,
`create_http_exception` returns an error whose kind matches the table
(400 validation, 401 authentication, 403 authorization, 404 generic base,
429 rate limit, 500 generic base, 502/503/504 network), and every status
code outside the table yields a NetworkError. -/
theorem create_http_exception_follows_table (msg : String) (resp : Option Response)
    (ctx : List (String × PyVal)) (s : Int)
    (h : s ∉ HTTP_EXCEPTION_MAP.map Prod.fst) :
    (create_http_exception 400 msg resp ctx).kind = .validation ∧
    (create_http_exception 401 msg resp ctx).kind = .authentication ∧
    (create_http_exception 403 msg resp ctx).kind = .authorization ∧
    (create_http_exception 404 msg resp ctx).kind = .base ∧
    (create_http_exception 429 msg resp ctx).kind = .rateLimit ∧
    (create_http_exception 500 msg resp ctx).kind = .base ∧
    (create_http_exception 502 msg resp ctx).kind = .network ∧
    (create_http_exception 503 msg resp ctx).kind = .network ∧
    (create_http_exception 504 msg resp ctx).kind = .network ∧
    (create_http_exception s msg resp ctx).kind = .network := by
  have hu := httpExceptionMapGet_unmapped s h
  refine ⟨?_, ?_, ?_, ?_, ?_, ?_, ?_, ?_, ?_, ?_⟩ <;>
    rw [create_http_exception_kind] <;> first | rfl | exact hu

/-- Closed instance of C4 at status 418 (unmapped) with all mapped codes. -/
theorem create_http_exception_follows_table_witness :
    (create_http_exception 400 "m" none []).kind = .validation ∧
    (create_http_exception 401 "m" none []).kind = .authentication ∧
    (create_http_exception 403 "m" none []).kind = .authorization ∧
    (create_http_exception 404 "m" none []).kind = .base ∧
    (create_http_exception 429 "m" none []).kind = .rateLimit ∧
    (create_http_exception 500 "m" none []).kind = .base ∧
    (create_http_exception 502 "m" none []).kind = .network ∧
    (create_http_exception 503 "m" none []).kind = .network ∧
    (create_http_exception 504 "m" none []).kind = .network ∧
    (create_http_exception 418 "m" none []).kind = .network :=
  create_http_exception_follows_table "m" none [] 418 (by decide)

/-! ## C7: rate-limit header extraction -/

/-- C7: for every 429 response, the RateLimitError built by
`create_http_exception` takes its retry_after, limit, remaining and
reset_time fields from the integer values parsed out of the retry-after,
x-ratelimit-limit, x-ratelimit-remaining and x-ratelimit-reset headers;
a header value that does not parse as an integer leaves the field unset
(construction is total, never a raised parse error). -/
theorem rate_limit_fields_from_headers (msg text : String)
    (ctx : List (String × PyVal)) (hs : List (String × String))
    (body : Option (List (String × PyVal))) :
    (create_http_exception 429 msg (some ⟨429, hs, body, text⟩) ctx).kind = .rateLimit ∧
    (∀ v n, headerGet hs "retry-after" = some v → parsePyInt v = some n →
      (create_http_exception 429 msg (some ⟨429, hs, body, text⟩) ctx).retry_after = some n) ∧
    (∀ v, headerGet hs "retry-after" = some v → parsePyInt v = none →
      (create_http_exception 429 msg (some ⟨429, hs, body, text⟩) ctx).retry_after = none) ∧
    (∀ v n, headerGet hs "x-ratelimit-limit" = some v → parsePyInt v = some n →
      (create_http_exception 429 msg (some ⟨429, hs, body, text⟩) ctx).limit = some n) ∧
    (∀ v, headerGet hs "x-ratelimit-limit" = some v → parsePyInt v = none →
      (create_http_exception 429 msg (some ⟨429, hs, body, text⟩) ctx).limit = none) ∧
    (∀ v n, headerGet hs "x-ratelimit-remaining" = some v → parsePyInt v = some n →
      (create_http_exception 429 msg (some ⟨429, hs, body, text⟩) ctx).remaining = some n) ∧
    (∀ v, headerGet hs "x-ratelimit-remaining" = some v → parsePyInt v = none →
      (create_http_exception 429 msg (some ⟨429, hs, body, text⟩) ctx).remaining = none) ∧
    (∀ v n, headerGet hs "x-ratelimit-reset" = some v → parsePyInt v = some n →
      (create_http_exception 429 msg (some ⟨429, hs, body, text⟩) ctx).reset_time = some n) ∧
    (∀ v, headerGet hs "x-ratelimit-reset" = some v → parsePyInt v = none →
      (create_http_exception 429 msg (some ⟨429, hs, body, text⟩) ctx).reset_time = none) := by
  have hra : (create_http_exception 429 msg (some ⟨429, hs, body, text⟩) ctx).retry_after
      = (headerGet hs "retry-after").bind parsePyInt := rfl
  have hli : (create_http_exception 429 msg (some ⟨429, hs, body, text⟩) ctx).limit
      = (headerGet hs "x-ratelimit-limit").bind parsePyInt := rfl
  have hre : (create_http_exception 429 msg (some ⟨429, hs, body, text⟩) ctx).remaining
      = (headerGet hs "x-ratelimit-remaining").bind parsePyInt := rfl
  have hrt : (create_http_exception 429 msg (some ⟨429, hs, body, text⟩) ctx).reset_time
      = (headerGet hs "x-ratelimit-reset").bind parsePyInt := rfl
  refine ⟨rfl, ?_, ?_, ?_, ?_, ?_, ?_, ?_, ?_⟩ <;> intro v
  · intro n hv hp; rw [hra, hv]; exact hp
  · intro hv hp; rw [hra, hv]; exact hp
  · intro n hv hp; rw [hli, hv]; exact hp
  · intro hv hp; rw [hli, hv]; exact hp
  · intro n hv hp; rw [hre, hv]; exact hp
  · intro hv hp; rw [hre, hv]; exact hp
  · intro n hv hp; rw [hrt, hv]; exact hp
  · intro hv hp; rw [hrt, hv]; exact hp

/-- Closed instance of C7: retry-after 30 and x-ratelimit-remaining 5 yield
retry_after 30 and remaining 5, and the malformed x-ratelimit-limit value
"abc" leaves limit unset. -/
theorem rate_limit_fields_from_headers_witness :
    (create_http_exception 429 "m"
      (some ⟨429, [("retry-after", "30"), ("x-ratelimit-remaining", "5"),
                   ("x-ratelimit-limit", "abc")], none, ""⟩) []).retry_after = some 30 ∧
    (create_http_exception 429 "m"
      (some ⟨429, [("retry-after", "30"), ("x-ratelimit-remaining", "5"),
                   ("x-ratelimit-limit", "abc")], none, ""⟩) []).remaining = some 5 ∧
    (create_http_exception 429 "m"
      (some ⟨429, [("retry-after", "30"), ("x-ratelimit-remaining", "5"),
                   ("x-ratelimit-limit", "abc")], none, ""⟩) []).limit = none :=
  ⟨(rate_limit_fields_from_headers "m" ""
      [] [("retry-after", "30"), ("x-ratelimit-remaining", "5"), ("x-ratelimit-limit", "abc")]
      none).2.1 "30" 30 rfl (by decide),
   (rate_limit_fields_from_headers "m" ""
      [] [("retry-after", "30"), ("x-ratelimit-remaining", "5"), ("x-ratelimit-limit", "abc")]
      none).2.2.2.2.2.1 "5" 5 rfl (by decide),
   (rate_limit_fields_from_headers "m" ""
      [] [("retry-after", "30"), ("x-ratelimit-remaining", "5"), ("x-ratelimit-limit", "abc")]
      none).2.2.2.2.1 "abc" rfl (by decide)⟩

/-! ## C9: rendering and serialization of typed errors -/

/-- The message attribute of a created exception is the given message. -/
theorem create_http_exception_message (s : Int) (msg : String) (resp : Option Response)
    (ctx : List (String × PyVal)) :
    (create_http_exception s msg resp ctx).message = msg := by
  unfold create_http_exception
  cases hk : httpExceptionMapGet s <;> cases resp <;> simp [hk, isNetworkKind]

/-- The context attribute of a created exception is the given context. -/
theorem create_http_exception_context (s : Int) (msg : String) (resp : Option Response)
    (ctx : List (String × PyVal)) :
    (create_http_exception s msg resp ctx).context = ctx := by
  unfold create_http_exception
  cases hk : httpExceptionMapGet s <;> cases resp <;> simp [hk, isNetworkKind]

/-- The error code of a created exception is the constructor default of the
mapped class. -/
theorem create_http_exception_error_code (s : Int) (msg : String) (resp : Option Response)
    (ctx : List (String × PyVal)) :
    (create_http_exception s msg resp ctx).error_code
      = defaultErrorCode (httpExceptionMapGet s) := by
  unfold create_http_exception
  cases hk : httpExceptionMapGet s <;> cases resp <;>
    simp [hk, isNetworkKind, defaultErrorCode]

/-- The map yields the generic base class exactly for 404 and 500. -/
theorem httpExceptionMapGet_eq_base_iff (s : Int) :
    httpExceptionMapGet s = .base ↔ s = 404 ∨ s = 500 := by
  by_cases h : s ∈ HTTP_EXCEPTION_MAP.map Prod.fst
  · simp only [HTTP_EXCEPTION_MAP, List.map_cons, List.map_nil, List.mem_cons,
      List.not_mem_nil, or_false] at h
    rcases h with rfl | rfl | rfl | rfl | rfl | rfl | rfl | rfl | rfl <;> decide
  · rw [httpExceptionMapGet_unmapped s h]
    constructor
    · intro hb; exact absurd hb (by decide)
    · intro hb
      rcases hb with rfl | rfl <;> exact absurd (by decide) h

/-- Rendering with a truthy code present is the code-tagged form. -/
theorem strOfError_eq_of_error_code (e : KFError) (c : String)
    (hc : e.error_code = some c) (hne : c.isEmpty = false) :
    strOfError e = "[" ++ c ++ "] " ++ e.message := by
  simp [strOfError, truthy, hc, hne, pyShowOpt]

/-- Rendering without a code is the bare message. -/
theorem strOfError_eq_of_no_code (e : KFError) (h : e.error_code = none) :
    strOfError e = e.message := by
  simp [strOfError, truthy, h]

/-- Serialization of any error keeps the four base entries (subclass entries are
appended under fresh keys). -/
theorem toDict_base_keys (e : KFError) :
    pyDictFind (toDict e) "type" = some (.pstr (className e.kind)) ∧
    pyDictFind (toDict e) "message" = some (.pstr e.message) ∧
    pyDictFind (toDict e) "error_code" = some (pyOfOptStr e.error_code) ∧
    pyDictFind (toDict e) "context" = some (.pdict e.context) := by
  cases hk : e.kind <;>
    simp [toDict, hk, baseToDict, networkToDictExtra, pyDictFind, List.find?]

/-- C9 counterexample: the error built for a 404 is the generic base class
with no machine code, and it renders as the bare message rather than the
code-tagged `[<code>] <message>` form. -/
theorem typed_error_rendering_counterexample :
    (create_http_exception 404 "not found" none []).error_code = none ∧
    strOfError (create_http_exception 404 "not found" none []) = "not found" ∧
    "not found".toList.head? ≠ some '[' :=
  ⟨rfl, rfl, by decide⟩

/-- C9 amended: every typed error from `create_http_exception` for a status
other than 404 and 500 carries a non-empty machine code and renders as
`[<code>] <message>`; for 404 and 500 the generic base error carries no code
and renders as the bare message; and every produced error serializes with
its type, message, error_code and context entries. -/
theorem typed_error_rendering (s : Int) (msg : String) (resp : Option Response)
    (ctx : List (String × PyVal)) :
    (¬(s = 404 ∨ s = 500) →
      ∃ c, (create_http_exception s msg resp ctx).error_code = some c ∧
        c.isEmpty = false ∧
        strOfError (create_http_exception s msg resp ctx) = "[" ++ c ++ "] " ++ msg) ∧
    (s = 404 ∨ s = 500 →
      (create_http_exception s msg resp ctx).error_code = none ∧
      strOfError (create_http_exception s msg resp ctx) = msg) ∧
    pyDictFind (toDict (create_http_exception s msg resp ctx)) "type"
      = some (.pstr (className (create_http_exception s msg resp ctx).kind)) ∧
    pyDictFind (toDict (create_http_exception s msg resp ctx)) "message"
      = some (.pstr msg) ∧
    pyDictFind (toDict (create_http_exception s msg resp ctx)) "error_code"
      = some (pyOfOptStr (create_http_exception s msg resp ctx).error_code) ∧
    pyDictFind (toDict (create_http_exception s msg resp ctx)) "context"
      = some (.pdict ctx) := by
  have hcode := create_http_exception_error_code s msg resp ctx
  have hmsg := create_http_exception_message s msg resp ctx
  have hctx := create_http_exception_context s msg resp ctx
  have hdict := toDict_base_keys (create_http_exception s msg resp ctx)
  refine ⟨?_, ?_, hdict.1, by rw [hdict.2.1, hmsg], hdict.2.2.1, by rw [hdict.2.2.2, hctx]⟩
  · intro hns
    have hb : httpExceptionMapGet s ≠ .base := fun hb =>
      hns ((httpExceptionMapGet_eq_base_iff s).mp hb)
    cases hk : httpExceptionMapGet s
    case base => exact absurd hk hb
    all_goals
      rw [hk] at hcode
      refine ⟨_, hcode, by decide, ?_⟩
      rw [strOfError_eq_of_error_code _ _ hcode (by decide), hmsg]
  · intro hbase
    have hk : httpExceptionMapGet s = .base := (httpExceptionMapGet_eq_base_iff s).mpr hbase
    rw [hk] at hcode
    exact ⟨hcode, by rw [strOfError_eq_of_no_code _ hcode, hmsg]⟩

/-- Closed instance of C9 amended at statuses 400 and 404. -/
theorem typed_error_rendering_witness :
    (∃ c, (create_http_exception 400 "bad" none []).error_code = some c ∧
      c.isEmpty = false ∧
      strOfError (create_http_exception 400 "bad" none []) = "[" ++ c ++ "] " ++ "bad") ∧
    ((create_http_exception 404 "gone" none []).error_code = none ∧
      strOfError (create_http_exception 404 "gone" none []) = "gone") ∧
    pyDictFind (toDict (create_http_exception 400 "bad" none [])) "message"
      = some (.pstr "bad") :=
  ⟨(typed_error_rendering 400 "bad" none []).1 (by decide),
   (typed_error_rendering 404 "gone" none []).2.1 (by decide),
   (typed_error_rendering 400 "bad" none []).2.2.2.1⟩

/-! ## C5: authentication method precedence -/

/-- C5: `get_auth_headers` resolves exactly one Authorization header set by
fixed precedence: a truthy static API key first; else the token path (whose
successful result is always a single Bearer header); else basic
username/password credentials; and it raises `AuthenticationError` when no
method is configured. -/
theorem get_auth_headers_precedence (cfg : AuthConfig) (st : TokenState) (now : Int)
    (server : RefreshOutcome) :
    (truthy cfg.api_key = true →
      get_auth_headers cfg st now server =
        ⟨.ok ([("Authorization", "Bearer " ++ pyShowOpt cfg.api_key)], st), 0⟩) ∧
    (truthy cfg.api_key = false →
      (truthy cfg.access_token || truthy st.access_token) = true →
      ∀ hdrs st2, (get_auth_headers cfg st now server).result = .ok (hdrs, st2) →
        ∃ t, hdrs = [("Authorization", "Bearer " ++ t)]) ∧
    (truthy cfg.api_key = false →
      (truthy cfg.access_token || truthy st.access_token) = false →
      (truthy cfg.username && truthy cfg.password) = true →
      get_auth_headers cfg st now server =
        ⟨.ok ([("Authorization", "Basic " ++
          b64encode (pyShowOpt cfg.username ++ ":" ++ pyShowOpt cfg.password))], st), 0⟩) ∧
    (truthy cfg.api_key = false →
      (truthy cfg.access_token || truthy st.access_token) = false →
      (truthy cfg.username && truthy cfg.password) = false →
      (get_auth_headers cfg st now server).result =
        .error (authenticationError "No valid authentication method configured")) := by
  refine ⟨?_, ?_, ?_, ?_⟩
  · intro hk
    simp [get_auth_headers, hk]
  · intro hk ht hdrs st2 hok
    simp only [get_auth_headers, hk, ht] at hok
    simp only [Bool.false_eq_true, if_false, if_true] at hok
    by_cases hr : token_needs_refresh st now = true
    · rw [if_pos hr] at hok
      rcases hrf : refresh_access_token st now server with ⟨res, n⟩
      rw [hrf] at hok
      cases res with
      | error e => exact absurd hok (by simp)
      | ok st3 =>
          refine ⟨pyShowOpt st3.access_token, ?_⟩
          injection hok with h2
          exact (((Prod.mk.injEq _ _ _ _).mp h2).1).symm
    · rw [if_neg hr] at hok
      refine ⟨pyShowOpt (pyOrStr st.access_token cfg.access_token), ?_⟩
      injection hok with h2
      exact (((Prod.mk.injEq _ _ _ _).mp h2).1).symm
  · intro hk ht hb
    simp [get_auth_headers, hk, ht, hb]
  · intro hk ht hb
    simp [get_auth_headers, hk, ht, hb]

/-- Closed instance of C5: an API key alone yields its Bearer header, and a
configuration with no method at all raises `AuthenticationError`. -/
theorem get_auth_headers_precedence_witness :
    get_auth_headers ⟨some "k", none, none, none, none⟩ ⟨none, none, none⟩ 0 (.failure "x") =
      ⟨.ok ([("Authorization", "Bearer k")], ⟨none, none, none⟩), 0⟩ ∧
    (get_auth_headers ⟨none, none, none, none, none⟩ ⟨none, none, none⟩ 0
        (.failure "x")).result =
      .error (authenticationError "No valid authentication method configured") :=
  ⟨(get_auth_headers_precedence ⟨some "k", none, none, none, none⟩
      ⟨none, none, none⟩ 0 (.failure "x")).1 (by decide),
   (get_auth_headers_precedence ⟨none, none, none, none, none⟩
      ⟨none, none, none⟩ 0 (.failure "x")).2.2.2 (by decide) (by decide) (by decide)⟩

/-! ## C6: precedence between Token State and static config fields -/

/-- C6 counterexample: with a static API key configured and a live access
token stored in Token State, the request is driven by the static API key,
not the live token, so a live token does not take precedence over every
static AuthConfig field. -/
theorem token_precedence_counterexample :
    (get_auth_headers ⟨some "k", none, none, none, none⟩ ⟨some "livetok", none, none⟩ 0
        (.failure "x")).result =
      .ok ([("Authorization", "Bearer k")], ⟨some "livetok", none, none⟩) ∧
    "Bearer k" ≠ "Bearer livetok" :=
  ⟨rfl, by decide⟩

/-- C6 amended: when no API key is configured, a live access token stored in
Token State drives the Authorization header, taking precedence over the
static `access_token` config field, whatever that field holds (shown here in
the no-refresh case, where the stored token is used as is). -/
theorem token_precedence_amended (cfg : AuthConfig) (st : TokenState) (now : Int)
    (server : RefreshOutcome)
    (hkey : truthy cfg.api_key = false)
    (t : String) (ht : st.access_token = some t) (hne : t.isEmpty = false)
    (hnr : token_needs_refresh st now = false) :
    get_auth_headers cfg st now server =
      ⟨.ok ([("Authorization", "Bearer " ++ t)], st), 0⟩ := by
  have htt : truthy st.access_token = true := by simp [truthy, ht, hne]
  have hor : (truthy cfg.access_token || truthy st.access_token) = true := by
    simp [htt]
  have hsel : pyOrStr st.access_token cfg.access_token = some t := by
    simp [pyOrStr, ht, truthy, hne]
  simp [get_auth_headers, hkey, hor, hnr, hsel, pyShowOpt]

/-- Closed instance of C6 amended: stored token "live" wins over configured
token "static". -/
theorem token_precedence_amended_witness :
    get_auth_headers ⟨none, some "static", none, none, none⟩ ⟨some "live", none, none⟩ 0
        (.failure "x") =
      ⟨.ok ([("Authorization", "Bearer live")], ⟨some "live", none, none⟩), 0⟩ ∧
    "Bearer live" ≠ "Bearer static" :=
  ⟨token_precedence_amended ⟨none, some "static", none, none, none⟩
      ⟨some "live", none, none⟩ 0 (.failure "x") (by decide) "live" rfl (by decide) (by decide),
   by decide⟩

/-! ## C10: no refresh without a stored token and expiry -/

/-- The check `_token_needs_refresh` is false when the stored token or the expiry is
missing. -/
theorem token_needs_refresh_false_of_missing (st : TokenState) (now : Int)
    (h : truthy st.access_token = false ∨ st.token_expires_at = none) :
    token_needs_refresh st now = false := by
  rcases h with h | h <;> simp [token_needs_refresh, h]

/-- C10: `get_auth_headers` never attempts a refresh unless Token State holds
both a stored access token and an expiry; in particular a request
authenticated only by the statically configured `access_token` (no stored
token, hence no recorded expiry) sends that token unchanged with zero
refresh calls, whatever `now` is. -/
theorem no_refresh_without_stored_token (cfg : AuthConfig) (st : TokenState) (now : Int)
    (server : RefreshOutcome)
    (h : truthy st.access_token = false ∨ st.token_expires_at = none) :
    (get_auth_headers cfg st now server).refreshCalls = 0 ∧
    (∀ t, truthy cfg.api_key = false → cfg.access_token = some t → t.isEmpty = false →
      st.access_token = none →
      get_auth_headers cfg st now server =
        ⟨.ok ([("Authorization", "Bearer " ++ t)], st), 0⟩) := by
  have hnr := token_needs_refresh_false_of_missing st now h
  constructor
  · by_cases hk : truthy cfg.api_key = true
    · simp [get_auth_headers, hk]
    · rw [Bool.not_eq_true] at hk
      by_cases ht : (truthy cfg.access_token || truthy st.access_token) = true
      · simp [get_auth_headers, hk, ht, hnr]
      · rw [Bool.not_eq_true] at ht
        by_cases hb : (truthy cfg.username && truthy cfg.password) = true
        · simp [get_auth_headers, hk, ht, hb]
        · rw [Bool.not_eq_true] at hb
          simp [get_auth_headers, hk, ht, hb]
  · intro t hk hct hne hst
    have hct' : truthy cfg.access_token = true := by simp [truthy, hct, hne]
    have hsel : pyOrStr st.access_token cfg.access_token = some t := by
      simp [pyOrStr, truthy, hst, hct]
    simp [get_auth_headers, hk, hct', hnr, hsel, pyShowOpt]

/-- Closed instance of C10: a config-only access token with empty Token
State is sent unchanged and triggers zero refresh calls. -/
theorem no_refresh_without_stored_token_witness :
    (truthy (none : Option String) = false ∨ (none : Option Int) = none) ∧
    (get_auth_headers ⟨none, some "cfgtok", none, none, none⟩ ⟨none, none, none⟩ 0
        (.failure "x")).refreshCalls = 0 ∧
    get_auth_headers ⟨none, some "cfgtok", none, none, none⟩ ⟨none, none, none⟩ 0
        (.failure "x") =
      ⟨.ok ([("Authorization", "Bearer cfgtok")], ⟨none, none, none⟩), 0⟩ :=
  ⟨Or.inl rfl,
   (no_refresh_without_stored_token ⟨none, some "cfgtok", none, none, none⟩
      ⟨none, none, none⟩ 0 (.failure "x") (Or.inl rfl)).1,
   (no_refresh_without_stored_token ⟨none, some "cfgtok", none, none, none⟩
      ⟨none, none, none⟩ 0 (.failure "x") (Or.inl rfl)).2 "cfgtok" rfl rfl (by decide) rfl⟩

/-! ## C3: the token refresh policy -/

/-- With a truthy refresh token, the refresh path always performs exactly
one refresh call, whatever the endpoint answers. -/
theorem refresh_access_token_calls_one (st : TokenState) (now : Int)
    (server : RefreshOutcome) (hrt : truthy st.refresh_token = true) :
    (refresh_access_token st now server).2 = 1 := by
  cases server with
  | failure m => simp [refresh_access_token, hrt]
  | success d => cases hd : d.access_token <;> simp [refresh_access_token, hrt, hd]

/-- The state produced by a successful refresh: the access token is replaced
and the refresh token and expiry are replaced when present in the body
(`expires_in` preferred over `expires_at`). -/
theorem refresh_access_token_success (st : TokenState) (now : Int) (d : RefreshData)
    (tok2 : String) (hrt : truthy st.refresh_token = true)
    (htok2 : d.access_token = some tok2) :
    refresh_access_token st now (.success d) =
      (.ok { access_token := some tok2
             refresh_token :=
               match d.refresh_token with
               | some r => some r
               | none => st.refresh_token
             token_expires_at :=
               match d.expires_in with
               | some q => some (now + q)
               | none =>
                   match d.expires_at with
                   | some a => some a
                   | none => st.token_expires_at }, 1) := by
  cases hd2 : d.refresh_token <;> cases hd3 : d.expires_in <;> cases hd4 : d.expires_at <;>
    simp [refresh_access_token, hrt, htok2, hd2, hd3, hd4]

/-- On the refresh path, `get_auth_headers` returns the refreshed state and
its token as the Bearer header. -/
theorem get_auth_headers_after_refresh (cfg : AuthConfig) (st : TokenState) (now : Int)
    (server : RefreshOutcome) (hkey : truthy cfg.api_key = false)
    (hor : (truthy cfg.access_token || truthy st.access_token) = true)
    (hr : token_needs_refresh st now = true) (st3 : TokenState)
    (hrf : refresh_access_token st now server = (.ok st3, 1)) :
    get_auth_headers cfg st now server =
      ⟨.ok ([("Authorization", "Bearer " ++ pyShowOpt st3.access_token)], st3), 1⟩ := by
  simp [get_auth_headers, hkey, hor, hr, hrf]

/-- C3: with a stored access token and expiry (and no API key short-circuit),
`get_auth_headers` refreshes exactly once when the token expires within five
minutes and a refresh token is present; raises `AuthenticationError` with
zero refresh calls when no refresh token is present; performs zero refresh
calls when the expiry is more than five minutes away; and a successful
refresh replaces the access token and, when present in the body, the
refresh token and expiry, before the headers are returned. -/
theorem token_refresh_policy (cfg : AuthConfig) (st : TokenState) (now : Int)
    (server : RefreshOutcome)
    (hkey : truthy cfg.api_key = false)
    (htok : truthy st.access_token = true)
    (exp : Int) (hexp : st.token_expires_at = some exp) :
    (now + 5 * 60 ≥ exp → truthy st.refresh_token = true →
      (get_auth_headers cfg st now server).refreshCalls = 1) ∧
    (now + 5 * 60 ≥ exp → truthy st.refresh_token = false →
      (get_auth_headers cfg st now server).refreshCalls = 0 ∧
      (get_auth_headers cfg st now server).result =
        .error (authenticationError "No refresh token available")) ∧
    (now + 5 * 60 < exp →
      get_auth_headers cfg st now server =
        ⟨.ok ([("Authorization",
          "Bearer " ++ pyShowOpt (pyOrStr st.access_token cfg.access_token))], st), 0⟩) ∧
    (now + 5 * 60 ≥ exp → truthy st.refresh_token = true →
      ∀ d tok2, server = .success d → d.access_token = some tok2 →
        ∃ st2, get_auth_headers cfg st now server =
            ⟨.ok ([("Authorization", "Bearer " ++ tok2)], st2), 1⟩ ∧
          st2.access_token = some tok2 ∧
          (∀ r2, d.refresh_token = some r2 → st2.refresh_token = some r2) ∧
          (∀ q, d.expires_in = some q → st2.token_expires_at = some (now + q)) ∧
          (d.expires_in = none → ∀ a, d.expires_at = some a →
            st2.token_expires_at = some a)) := by
  have hor : (truthy cfg.access_token || truthy st.access_token) = true := by
    simp [htok]
  have hr_eq : token_needs_refresh st now = decide (now + 5 * 60 ≥ exp) := by
    simp [token_needs_refresh, htok, hexp]
  refine ⟨?_, ?_, ?_, ?_⟩
  · intro hge hrt
    have hr : token_needs_refresh st now = true := by
      rw [hr_eq]; exact decide_eq_true hge
    have hn := refresh_access_token_calls_one st now server hrt
    rcases hrf : refresh_access_token st now server with ⟨res, n⟩
    rw [hrf] at hn
    simp only at hn
    cases res <;> simp [get_auth_headers, hkey, hor, hr, hrf, hn]
  · intro hge hrt
    have hr : token_needs_refresh st now = true := by
      rw [hr_eq]; exact decide_eq_true hge
    have hrf : refresh_access_token st now server =
        (.error (authenticationError "No refresh token available"), 0) := by
      simp [refresh_access_token, hrt]
    constructor <;> simp [get_auth_headers, hkey, hor, hr, hrf]
  · intro hlt
    have hr : token_needs_refresh st now = false := by
      rw [hr_eq]; exact decide_eq_false (not_le.mpr hlt)
    simp [get_auth_headers, hkey, hor, hr]
  · intro hge hrt d tok2 hserver htok2
    subst hserver
    have hr : token_needs_refresh st now = true := by
      rw [hr_eq]; exact decide_eq_true hge
    refine ⟨_, get_auth_headers_after_refresh cfg st now _ hkey hor hr _
      (refresh_access_token_success st now d tok2 hrt htok2), rfl, ?_, ?_, ?_⟩
    · intro r2 h2; simp [h2]
    · intro q h3; simp [h3]
    · intro h3 a h4; simp [h3, h4]

/-- Closed instance of C3: an expiry four minutes out with a refresh token
triggers exactly one refresh (and the new token is installed); an expiry
ten minutes out triggers zero refresh calls; a near expiry with no refresh
token raises `AuthenticationError`. -/
theorem token_refresh_policy_witness :
    (get_auth_headers ⟨none, none, none, none, none⟩ ⟨some "tok", some "r", some 240⟩ 0
        (.success ⟨some "new", some "nr", some 3600, none⟩)).refreshCalls = 1 ∧
    get_auth_headers ⟨none, none, none, none, none⟩ ⟨some "tok", some "r", some 600⟩ 0
        (.success ⟨some "new", some "nr", some 3600, none⟩) =
      ⟨.ok ([("Authorization", "Bearer tok")], ⟨some "tok", some "r", some 600⟩), 0⟩ ∧
    ((get_auth_headers ⟨none, none, none, none, none⟩ ⟨some "tok", none, some 240⟩ 0
        (.success ⟨some "new", some "nr", some 3600, none⟩)).refreshCalls = 0 ∧
      (get_auth_headers ⟨none, none, none, none, none⟩ ⟨some "tok", none, some 240⟩ 0
        (.success ⟨some "new", some "nr", some 3600, none⟩)).result =
        .error (authenticationError "No refresh token available")) ∧
    (∃ st2, get_auth_headers ⟨none, none, none, none, none⟩
        ⟨some "tok", some "r", some 240⟩ 0
        (.success ⟨some "new", some "nr", some 3600, none⟩) =
          ⟨.ok ([("Authorization", "Bearer new")], st2), 1⟩ ∧
      st2.access_token = some "new" ∧
      (∀ r2, (some "nr" : Option String) = some r2 → st2.refresh_token = some r2) ∧
      (∀ q, (some 3600 : Option Int) = some q → st2.token_expires_at = some (0 + q)) ∧
      ((some 3600 : Option Int) = none → ∀ a, (none : Option Int) = some a →
        st2.token_expires_at = some a)) :=
  ⟨(token_refresh_policy ⟨none, none, none, none, none⟩ ⟨some "tok", some "r", some 240⟩ 0
      (.success ⟨some "new", some "nr", some 3600, none⟩) (by decide) (by decide) 240
      rfl).1 (by decide) (by decide),
   (token_refresh_policy ⟨none, none, none, none, none⟩ ⟨some "tok", some "r", some 600⟩ 0
      (.success ⟨some "new", some "nr", some 3600, none⟩) (by decide) (by decide) 600
      rfl).2.2.1 (by decide),
   (token_refresh_policy ⟨none, none, none, none, none⟩ ⟨some "tok", none, some 240⟩ 0
      (.success ⟨some "new", some "nr", some 3600, none⟩) (by decide) (by decide) 240
      rfl).2.1 (by decide) (by decide),
   (token_refresh_policy ⟨none, none, none, none, none⟩ ⟨some "tok", some "r", some 240⟩ 0
      (.success ⟨some "new", some "nr", some 3600, none⟩) (by decide) (by decide) 240
      rfl).2.2.2 (by decide) (by decide) ⟨some "new", some "nr", some 3600, none⟩ "new"
      rfl rfl⟩

/-! ## Request pipeline loop lemmas -/

/-- One loop iteration whose attempt yields a response. -/
theorem request_loop_response_step (maxR : Nat) (delay : ℚ) (att : Nat → TransportOutcome)
    (lastE : Option KFError) (attempt fuel : Nat) (sleeps : List ℚ) (r : Response)
    (h : att attempt = .response r) :
    request_loop maxR delay att lastE attempt (fuel + 1) sleeps =
      if isSuccessStatus r.status_code then
        ⟨attempt + 1, sleeps, .success r⟩
      else
        ⟨attempt + 1, sleeps, .raised (handle_error_response r)⟩ := by
  simp only [request_loop]
  rw [h]

/-- One loop iteration whose attempt fails at the transport level. -/
theorem request_loop_transport_step (maxR : Nat) (delay : ℚ) (att : Nat → TransportOutcome)
    (lastE : Option KFError) (attempt fuel : Nat) (sleeps : List ℚ) (msg : String)
    (h : att attempt = .transportError msg) :
    request_loop maxR delay att lastE attempt (fuel + 1) sleeps =
      if attempt < maxR then
        request_loop maxR delay att (some (requestFailedError msg attempt maxR))
          (attempt + 1) fuel (sleeps ++ [delay * ((2 ^ attempt : ℕ) : ℚ)])
      else
        ⟨attempt + 1, sleeps, .raised (requestFailedError msg attempt maxR)⟩ := by
  simp only [request_loop]
  rw [h]

/-- When every attempt fails at the transport level, the loop sleeps
`delay * 2 ^ attempt` after each attempt but the last and ends raising the
`NetworkError` wrapping the last failure. -/
theorem request_loop_all_fail (maxR : Nat) (delay : ℚ) (m : Nat → String) :
    ∀ fuel attempt sleeps lastE, attempt + fuel = maxR + 1 → 0 < fuel →
      request_loop maxR delay (fun i => .transportError (m i)) lastE attempt fuel sleeps =
        ⟨maxR + 1,
         sleeps ++ (List.range' attempt (fuel - 1)).map (fun i => delay * ((2 ^ i : ℕ) : ℚ)),
         .raised (requestFailedError (m maxR) maxR maxR)⟩ := by
  intro fuel
  induction fuel with
  | zero => intro attempt sleeps lastE hsum hpos; omega
  | succ f ih =>
      intro attempt sleeps lastE hsum hpos
      rw [request_loop_transport_step maxR delay _ lastE attempt f sleeps (m attempt) rfl]
      by_cases hm : attempt < maxR
      · rw [if_pos hm]
        have hf : 0 < f := by omega
        rw [ih (attempt + 1) (sleeps ++ [delay * ((2 ^ attempt : ℕ) : ℚ)]) _ (by omega) hf]
        have hfe : f + 1 - 1 = (f - 1) + 1 := by omega
        rw [hfe, List.range'_succ, List.map_cons, ← List.append_cons]
      · rw [if_neg hm]
        have ha : attempt = maxR := by omega
        have hf0 : f = 0 := by omega
        subst ha hf0
        simp

/-- When the attempts before index `k` fail at the transport level and
attempt `k` yields a response, the loop performs exactly `k + 1` HTTP calls,
the backoff sleeps in between, and ends with that response: returned when it
is a 2xx, raised as the typed error otherwise. -/
theorem request_loop_reaches (maxR : Nat) (delay : ℚ) (att : Nat → TransportOutcome)
    (m : Nat → String) (k : Nat) (r : Response)
    (hk : k ≤ maxR)
    (hfail : ∀ i, i < k → att i = .transportError (m i))
    (hresp : att k = .response r) :
    ∀ fuel attempt sleeps lastE, attempt + fuel = maxR + 1 → attempt ≤ k →
      request_loop maxR delay att lastE attempt fuel sleeps =
        ⟨k + 1,
         sleeps ++ (List.range' attempt (k - attempt)).map (fun i => delay * ((2 ^ i : ℕ) : ℚ)),
         if isSuccessStatus r.status_code then .success r
         else .raised (handle_error_response r)⟩ := by
  intro fuel
  induction fuel with
  | zero => intro attempt sleeps lastE hsum hle; omega
  | succ f ih =>
      intro attempt sleeps lastE hsum hle
      by_cases hak : attempt = k
      · subst hak
        rw [request_loop_response_step maxR delay att lastE attempt f sleeps r hresp]
        by_cases hs : isSuccessStatus r.status_code = true
        · rw [if_pos hs, if_pos hs]
          simp
        · rw [Bool.not_eq_true] at hs
          rw [hs]
          simp
      · have hlt : attempt < k := lt_of_le_of_ne hle hak
        rw [request_loop_transport_step maxR delay att lastE attempt f sleeps (m attempt)
          (hfail attempt hlt)]
        rw [if_pos (lt_of_lt_of_le hlt hk)]
        rw [ih (attempt + 1) (sleeps ++ [delay * ((2 ^ attempt : ℕ) : ℚ)]) _ (by omega)
          (by omega)]
        have hka : k - attempt = (k - (attempt + 1)) + 1 := by omega
        rw [hka, List.range'_succ, List.map_cons, ← List.append_cons]

/-- The kind of the typed error raised for a non-2xx response is the mapped
kind of its status code. -/
theorem handle_error_response_kind (r : Response) :
    (handle_error_response r).kind = httpExceptionMapGet r.status_code := by
  unfold handle_error_response
  rcases hpb : parseErrorBody r with _ | ⟨msg, ctx⟩ <;>
    simp [hpb, create_http_exception_kind]

/-! ## C1: exponential backoff and the retry ceiling -/

/-- C1 counterexample: with `max_retries = 3` and `retry_delay = 1.0`, a
request whose transport always fails performs four attempts and sleeps
1s, 2s and 4s before the final raise, not just the two waits of ~1s and
~2s the claim describes. -/
theorem retry_backoff_counterexample :
    (client_request false ⟨"u", 30, 3, 1, true, none⟩ ⟨some "k", none, none, none, none⟩
        ⟨none, none, none⟩ 0 (.failure "x") (fun _ => .transportError "boom")).sleeps
      = [1, 2, 4] ∧
    (client_request false ⟨"u", 30, 3, 1, true, none⟩ ⟨some "k", none, none, none, none⟩
        ⟨none, none, none⟩ 0 (.failure "x") (fun _ => .transportError "boom")).sleeps
      ≠ [1, 2] ∧
    (client_request false ⟨"u", 30, 3, 1, true, none⟩ ⟨some "k", none, none, none, none⟩
        ⟨none, none, none⟩ 0 (.failure "x") (fun _ => .transportError "boom")).httpCalls
      = 4 := by
  have h := request_loop_all_fail 3 1 (fun _ => "boom") 4 0 [] none (by norm_num) (by norm_num)
  rw [show List.range' 0 (4 - 1) = [0, 1, 2] from rfl] at h
  simp only [List.map_cons, List.map_nil, List.nil_append] at h
  rw [show (1 : ℚ) * ((2 ^ 0 : ℕ) : ℚ) = 1 by norm_num,
      show (1 : ℚ) * ((2 ^ 1 : ℕ) : ℚ) = 2 by norm_num,
      show (1 : ℚ) * ((2 ^ 2 : ℕ) : ℚ) = 4 by norm_num] at h
  have hrun : client_request false ⟨"u", 30, 3, 1, true, none⟩ ⟨some "k", none, none, none, none⟩
      ⟨none, none, none⟩ 0 (.failure "x") (fun _ => .transportError "boom") =
      ⟨1, 4, [1, 2, 4], .raised (requestFailedError "boom" 3 3)⟩ := by
    show (⟨1,
      (request_loop 3 1 (fun _ => TransportOutcome.transportError "boom") none 0 4 []).httpCalls,
      (request_loop 3 1 (fun _ => TransportOutcome.transportError "boom") none 0 4 []).sleeps,
      (request_loop 3 1 (fun _ => TransportOutcome.transportError "boom") none 0 4 []).outcome⟩ :
        RequestRun) = _
    rw [h]
  rw [hrun]
  exact ⟨rfl, by simp, rfl⟩

/-- C1 amended: when every attempt fails at the transport level the pipeline
sleeps `retry_delay * 2 ^ attempt` after each of attempts 0..max_retries-1
and raises the `NetworkError` wrapping the last failure after attempt
max_retries, for `max_retries + 1` attempts in total (so with
`max_retries = 3`, `retry_delay = 1.0`: waits of 1s, 2s and 4s across four
attempts); and a request whose transport succeeds on attempt 2 returns that
response immediately after two HTTP calls, with no third attempt. -/
theorem retry_backoff_behavior (u : String) (tmo : Int) (maxR : Nat) (delay : ℚ)
    (ssl : Bool) (ua : Option String) (acfg : AuthConfig) (st : TokenState) (now : Int)
    (server : RefreshOutcome)
    (hauth : ∃ h, (get_auth_headers acfg st now server).result = .ok h)
    (m : Nat → String) :
    client_request false ⟨u, tmo, maxR, delay, ssl, ua⟩ acfg st now server
        (fun i => .transportError (m i)) =
      ⟨1, maxR + 1, (List.range maxR).map (fun i => delay * ((2 ^ i : ℕ) : ℚ)),
       .raised (requestFailedError (m maxR) maxR maxR)⟩ ∧
    (∀ (att : Nat → TransportOutcome) (r : Response) (e0 : String),
      att 0 = .transportError e0 → att 1 = .response r →
      isSuccessStatus r.status_code = true → 1 ≤ maxR →
      client_request false ⟨u, tmo, maxR, delay, ssl, ua⟩ acfg st now server att =
        ⟨1, 2, [delay * ((2 ^ 0 : ℕ) : ℚ)], .success r⟩) := by
  obtain ⟨h, hok⟩ := hauth
  constructor
  · simp only [client_request, Bool.false_eq_true, if_false, hok]
    rw [request_loop_all_fail maxR delay m (maxR + 1) 0 [] none (by omega) (by omega)]
    simp [List.range_eq_range']
  · intro att r e0 h0 h1 hs hmax
    simp only [client_request, Bool.false_eq_true, if_false, hok]
    have hfail : ∀ i, i < 1 → att i = .transportError ((fun _ => e0) i) := by
      intro i hi
      cases i with
      | zero => exact h0
      | succ n => omega
    rw [request_loop_reaches maxR delay att (fun _ => e0) 1 r hmax hfail h1
      (maxR + 1) 0 [] none (by omega) (by omega)]
    simp [hs, List.range']

/-- Closed instance of C1 amended at `max_retries = 3`, `retry_delay = 1`. -/
theorem retry_backoff_behavior_witness :
    client_request false ⟨"u", 30, 3, 1, true, none⟩ ⟨some "k", none, none, none, none⟩
        ⟨none, none, none⟩ 0 (.failure "x") (fun _ => .transportError "boom") =
      ⟨1, 3 + 1, (List.range 3).map (fun i => (1 : ℚ) * ((2 ^ i : ℕ) : ℚ)),
       .raised (requestFailedError "boom" 3 3)⟩ ∧
    client_request false ⟨"u", 30, 3, 1, true, none⟩ ⟨some "k", none, none, none, none⟩
        ⟨none, none, none⟩ 0 (.failure "x")
        (fun i => if i = 0 then .transportError "x"
                  else .response ⟨200, [], none, ""⟩) =
      ⟨1, 2, [(1 : ℚ) * ((2 ^ 0 : ℕ) : ℚ)], .success ⟨200, [], none, ""⟩⟩ :=
  ⟨(retry_backoff_behavior "u" 30 3 1 true none ⟨some "k", none, none, none, none⟩
      ⟨none, none, none⟩ 0 (.failure "x")
      ⟨([("Authorization", "Bearer k")], ⟨none, none, none⟩), rfl⟩ (fun _ => "boom")).1,
   (retry_backoff_behavior "u" 30 3 1 true none ⟨some "k", none, none, none, none⟩
      ⟨none, none, none⟩ 0 (.failure "x")
      ⟨([("Authorization", "Bearer k")], ⟨none, none, none⟩), rfl⟩ (fun _ => "x")).2
      (fun i => if i = 0 then .transportError "x" else .response ⟨200, [], none, ""⟩)
      ⟨200, [], none, ""⟩ "x" rfl rfl (by decide) (by decide)⟩

/-! ## C2: auth headers are resolved once per request -/

/-- C2 counterexample: a run with one retry (two HTTP calls) still resolves
the auth headers exactly once, not once per retry. -/
theorem auth_resolved_once_counterexample :
    (client_request false ⟨"u", 30, 3, 1, true, none⟩ ⟨some "k", none, none, none, none⟩
        ⟨none, none, none⟩ 0 (.failure "x")
        (fun i => if i = 0 then .transportError "x"
                  else .response ⟨200, [], none, ""⟩)).httpCalls = 2 ∧
    (client_request false ⟨"u", 30, 3, 1, true, none⟩ ⟨some "k", none, none, none, none⟩
        ⟨none, none, none⟩ 0 (.failure "x")
        (fun i => if i = 0 then .transportError "x"
                  else .response ⟨200, [], none, ""⟩)).authCalls = 1 ∧
    (client_request false ⟨"u", 30, 3, 1, true, none⟩ ⟨some "k", none, none, none, none⟩
        ⟨none, none, none⟩ 0 (.failure "x")
        (fun i => if i = 0 then .transportError "x"
                  else .response ⟨200, [], none, ""⟩)).authCalls ≠ 2 :=
  ⟨rfl, rfl, by decide⟩

/-- C2 amended: `_request` invokes `get_auth_headers` exactly once, before
the attempt loop; retries reuse the headers computed then, and an auth
failure propagates before any HTTP call is attempted. -/
theorem auth_resolved_once (cfg : ClientConfig) (acfg : AuthConfig) (st : TokenState)
    (now : Int) (server : RefreshOutcome) (att : Nat → TransportOutcome) :
    (client_request false cfg acfg st now server att).authCalls = 1 ∧
    (∀ e, (get_auth_headers acfg st now server).result = .error e →
      client_request false cfg acfg st now server att = ⟨1, 0, [], .raised e⟩) := by
  constructor
  · rcases hres : (get_auth_headers acfg st now server).result with e | h <;>
      simp [client_request, hres]
  · intro e he
    simp [client_request, he]

/-- Closed instance of C2 amended: an unconfigured client fails auth before
any HTTP call. -/
theorem auth_resolved_once_witness :
    (client_request false ⟨"u", 30, 3, 1, true, none⟩ ⟨none, none, none, none, none⟩
        ⟨none, none, none⟩ 0 (.failure "x") (fun _ => .transportError "boom")).authCalls
      = 1 ∧
    client_request false ⟨"u", 30, 3, 1, true, none⟩ ⟨none, none, none, none, none⟩
        ⟨none, none, none⟩ 0 (.failure "x") (fun _ => .transportError "boom") =
      ⟨1, 0, [], .raised (authenticationError "No valid authentication method configured")⟩ :=
  ⟨(auth_resolved_once ⟨"u", 30, 3, 1, true, none⟩ ⟨none, none, none, none, none⟩
      ⟨none, none, none⟩ 0 (.failure "x") (fun _ => .transportError "boom")).1,
   (auth_resolved_once ⟨"u", 30, 3, 1, true, none⟩ ⟨none, none, none, none, none⟩
      ⟨none, none, none⟩ 0 (.failure "x") (fun _ => .transportError "boom")).2
      (authenticationError "No valid authentication method configured") rfl⟩

/-! ## C8: non-2xx responses raise immediately with no retry -/

/-- C8: when attempt `k` (after `k` transport failures) yields a non-2xx
response, `_request` raises the typed error built by
`_handle_error_response` immediately: exactly `k + 1` HTTP calls happen,
no backoff sleep follows the response, the loop ends regardless of the
attempts remaining, and the kind of the raised error comes from the status-code
map. Retries only ever follow transport-level failures. -/
theorem error_response_terminates_loop (u : String) (tmo : Int) (maxR : Nat) (delay : ℚ)
    (ssl : Bool) (ua : Option String) (acfg : AuthConfig) (st : TokenState) (now : Int)
    (server : RefreshOutcome)
    (hauth : ∃ h, (get_auth_headers acfg st now server).result = .ok h)
    (att : Nat → TransportOutcome) (m : Nat → String) (k : Nat) (r : Response)
    (hk : k ≤ maxR)
    (hfail : ∀ i, i < k → att i = .transportError (m i))
    (hresp : att k = .response r)
    (hns : isSuccessStatus r.status_code = false) :
    client_request false ⟨u, tmo, maxR, delay, ssl, ua⟩ acfg st now server att =
      ⟨1, k + 1, (List.range k).map (fun i => delay * ((2 ^ i : ℕ) : ℚ)),
       .raised (handle_error_response r)⟩ ∧
    (handle_error_response r).kind = httpExceptionMapGet r.status_code := by
  obtain ⟨h, hok⟩ := hauth
  refine ⟨?_, handle_error_response_kind r⟩
  simp only [client_request, Bool.false_eq_true, if_false, hok]
  rw [request_loop_reaches maxR delay att m k r hk hfail hresp (maxR + 1) 0 [] none
    (by omega) (by omega)]
  simp [hns, List.range_eq_range']

/-- Closed instance of C8: a 404 on the second attempt (after one transport
failure) ends the run at two HTTP calls even though retries remain. -/
theorem error_response_terminates_loop_witness :
    client_request false ⟨"u", 30, 3, 1, true, none⟩ ⟨some "k", none, none, none, none⟩
        ⟨none, none, none⟩ 0 (.failure "x")
        (fun i => if i = 0 then .transportError "x"
                  else .response ⟨404, [], none, "nf"⟩) =
      ⟨1, 1 + 1, (List.range 1).map (fun i => (1 : ℚ) * ((2 ^ i : ℕ) : ℚ)),
       .raised (handle_error_response ⟨404, [], none, "nf"⟩)⟩ ∧
    (handle_error_response ⟨404, [], none, "nf"⟩).kind
      = httpExceptionMapGet (404 : Int) :=
  error_response_terminates_loop "u" 30 3 1 true none ⟨some "k", none, none, none, none⟩
    ⟨none, none, none⟩ 0 (.failure "x")
    ⟨([("Authorization", "Bearer k")], ⟨none, none, none⟩), rfl⟩
    (fun i => if i = 0 then .transportError "x" else .response ⟨404, [], none, "nf"⟩)
    (fun _ => "x") 1 ⟨404, [], none, "nf"⟩ (by decide)
    (fun i hi => by
      cases i with
      | zero => rfl
      | succ n => omega)
    rfl (by decide)

end Reporunner
